import Mathlib

/-!
Verification of the tello_fly middleware core against its specification.

This file gives a shallow embedding, in Lean 4, of the parts of the
repository that the claims concern:

* `src/drivers/tello/tello_sdk.py` — the `_TelloDriver` class
  (`_drain_rx_queue`, `_send_and_wait`, `send_cmd`, `heartbeat`) and the
  module-level `reconnect_if_needed` wrapper;
* `src/middleware/module/task_scheduler.py` — the per-task retry state
  machine `_run_task` together with the response-callback bridge
  `_on_driver_resp`;
* `src/middleware/module/event_bus.py` — the `_Broadcast` channel
  (`register`, `publish`, `close`) and the subscriber iteration
  `_subscribe_generic`;
* `src/middleware/module/state_monitor.py` — one tick of
  `StateMonitor._run`;
* `src/middleware/module/cmd_queue.py` — the payload construction in
  `CmdQueue._worker_loop`.

Python dictionaries are embedded as insertion-ordered association lists
(`Dict`) with last-write-wins update (`upsert`), matching CPython dict
literal semantics.  Stateful code is embedded as explicit state passing;
the nondeterministic environment (UDP datagrams arriving during a wait,
the completion behaviour of a per-attempt future) is an explicit oracle
argument.  A Python call that raises is embedded as a result carrying the
raised exception (`PyErr`), with the effects performed before the raise
recorded.
-/

/-- Embedded Python values, as far as the claims need them. -/
inductive PyVal where
  | str (s : String)
  | bool (b : Bool)
  | int (n : Int)
  | pynone
  | dict (entries : List (String × PyVal))

/-- A Python dict: insertion-ordered association list with unique keys. -/
abbrev Dict := List (String × PyVal)

/-- Python `d.get(key)` / `d[key]` lookup (keys of a dict are unique, so
the first match is the binding). -/
def dget : Dict → String → Option PyVal
  | [], _ => Option.none
  | (k, v) :: rest, key => if k == key then some v else dget rest key

/-- Python dict update of a single key: overwrite in place when the key is
present, append otherwise.  This is the semantics of writing a key into a
dict literal or of `dict.update` per key. -/
def upsert : Dict → String → PyVal → Dict
  | [], key, v => [(key, v)]
  | kv :: rest, key, v =>
    if kv.1 == key then (key, v) :: rest else kv :: upsert rest key v

/-- Folding a list of bindings into a dict, as `{**base, **kvs}` or a
dict literal with splat does. -/
def dictExtend (d : Dict) (kvs : List (String × PyVal)) : Dict :=
  kvs.foldl (fun acc kv => upsert acc kv.1 kv.2) d

/-- Python `str()` on the embedded values. -/
def pyStr : PyVal → String
  | PyVal.str s => s
  | PyVal.bool b => if b then "True" else "False"
  | PyVal.int n => toString n
  | PyVal.pynone => "None"
  | PyVal.dict _ => "dict"

/-- Python `str.lower()` (the command strings involved are ASCII). -/
def pyLower (s : String) : String :=
  ⟨s.data.map Char.toLower⟩

/-- Python `str.strip()`: whitespace removed from both ends. -/
def pyStrip (s : String) : String :=
  ⟨((s.data.dropWhile Char.isWhitespace).reverse.dropWhile Char.isWhitespace).reverse⟩

theorem dget_upsert_self (d : Dict) (key : String) (v : PyVal) :
    dget (upsert d key v) key = some v := by
  induction d with
  | nil => simp [upsert, dget]
  | cons kv rest ih =>
    by_cases hk : kv.1 == key
    · simp [upsert, hk, dget]
    · simp [upsert, hk, dget, ih]

theorem dget_upsert_ne (d : Dict) (key other : String) (v : PyVal)
    (h : other ≠ key) : dget (upsert d key v) other = dget d other := by
  have hko : ¬ (key = other) := fun e => h e.symm
  induction d with
  | nil => simp [upsert, dget, hko]
  | cons kv rest ih =>
    by_cases hk : kv.1 == key
    · have hkey : kv.1 = key := by simpa using hk
      simp [upsert, hk, dget, hko, hkey]
    · by_cases ho : kv.1 == other
      · simp [upsert, hk, dget, ho]
      · simp [upsert, hk, dget, ho, ih]

theorem dget_dictExtend_of_absent (d : Dict) (kvs : List (String × PyVal))
    (key : String) (h : ∀ kv ∈ kvs, kv.1 ≠ key) :
    dget (dictExtend d kvs) key = dget d key := by
  induction kvs generalizing d with
  | nil => rfl
  | cons kv rest ih =>
    have hk : kv.1 ≠ key := h kv (by simp)
    have hrest : ∀ p ∈ rest, p.1 ≠ key := fun p hp => h p (by simp [hp])
    show dget (dictExtend (upsert d kv.1 kv.2) rest) key = dget d key
    rw [ih (upsert d kv.1 kv.2) hrest, dget_upsert_ne d kv.1 key kv.2 (fun e => hk e.symm)]

/-!
## Driver (`src/drivers/tello/tello_sdk.py`, class `_TelloDriver`)

The driver owns a UDP transport and a bounded receive queue of decoded
text lines.  `_send_and_wait` drains the queue, writes one datagram and
consumes queued lines until one satisfies the accept predicate or the
wait times out.  The embedding passes the state explicitly and records
the performed wire actions as a trace; the datagrams that arrive (and are
dequeued) during the wait window are the `arrivals` oracle.

`_TelloDriver` defines no method `reconnect_if_needed`, yet
`send_cmd` (line 161) and the module-level wrapper (line 267) call it on
the driver instance; in Python that attribute lookup raises
`AttributeError`.  The embedding records a raise as `PyErr` in the
result, together with all effects performed before it.
-/

/-- A Python exception, as far as the claims need it. -/
inductive PyErr where
  | attributeError (name : String)
deriving DecidableEq, Repr

/-- The observable actions of the driver on its socket and receive
queue: draining the queue, writing one datagram, dequeuing a line that
matches the accept predicate, dequeuing and discarding one that does
not. -/
inductive WireAction where
  | drain
  | send (text : String)
  | recvMatch (line : String)
  | recvSkip (line : String)
deriving DecidableEq, Repr

/-- One invocation of the registered response callback
`cb(cmd, ok, payload)`. -/
structure CbCall where
  cmd : String
  ok : Int
  payload : Dict

/-- Driver state: the fields of `_TelloDriver` that the claims touch.
`hasTransport` stands for `self._transport is not None`. -/
structure DriverState where
  connected : Bool
  hasTransport : Bool
  rxQueue : List String
  respCbSet : Bool
  lastTaskId : String
  lastBattery : Option Int

/-- The wait loop of `_send_and_wait` (lines 127-134): dequeue lines in
arrival order until one satisfies the predicate (returned, later
arrivals stay queued) or the window ends (empty string, every dequeued
line discarded).  Returns (reply, recv trace, lines left in the queue). -/
def waitLoop (pred : String → Bool) : List String → String × List WireAction × List String
  | [] => ("", [], [])
  | l :: rest =>
    if pred l then (l, [WireAction.recvMatch l], rest)
    else
      let r := waitLoop pred rest
      (r.1, WireAction.recvSkip l :: r.2.1, r.2.2)

/-- Result of `_send_and_wait`: the reply (empty on timeout), the state
after the call, and the trace of wire actions. -/
structure SWOut where
  resp : String
  state : DriverState
  trace : List WireAction

/-- `_TelloDriver._send_and_wait` (lines 100-134): no transport → return
"" without touching the wire; otherwise drain the receive queue
(`_drain_rx_queue`, lines 92-98), write the text as one datagram, then
run the wait loop over the lines arriving during the window. -/
def sendAndWait (st : DriverState) (arrivals : List String) (text : String)
    (pred : String → Bool) : SWOut :=
  if st.hasTransport = false then ⟨"", st, []⟩
  else
    let w := waitLoop pred arrivals
    ⟨w.1, { st with rxQueue := w.2.2 },
      WireAction.drain :: WireAction.send text :: w.2.1⟩

/-- The accept predicate used by `connect` and `send_cmd`
(lines 171-173): the line equals `ok` or `error`, case-insensitively. -/
def okOrError (s : String) : Bool :=
  pyLower s == "ok" || pyLower s == "error"

/-- Python `str.isdigit` on ASCII digits, the accept predicate of
`heartbeat` (lines 209-210). -/
def isDigits (s : String) : Bool :=
  decide (s.length > 0) && s.toList.all Char.isDigit

/-- Result of a driver call: the final state, the response-callback
invocations it made, the wire-action trace, and the exception it raised,
if any (effects recorded happened before the raise). -/
structure SendResult where
  state : DriverState
  calls : List CbCall
  trace : List WireAction
  err : Option PyErr

/-- The `if self._resp_cb:` guard around each callback invocation. -/
def mkCb (st : DriverState) (cmd : String) (ok : Int) (p : Dict) : List CbCall :=
  if st.respCbSet then [⟨cmd, ok, p⟩] else []

/-- `_TelloDriver.send_cmd` (lines 155-203).  Steps, in source order:
set `_last_task_id` from `json_param`; if not connected or no transport,
call `self.reconnect_if_needed()` — a method `_TelloDriver` does not
define, so the call raises `AttributeError` before any callback or wire
write; otherwise strip the command, send it via `_send_and_wait` with
the ok/error predicate, and report the outcome through the response
callback: timeout with `cmd.lower()` in {takeoff, land} → assumed
success, other timeout → `{error: "timeout"}`, reply `ok` → ack, any
other reply → `{error: <line>}`. -/
def sendCmd (st : DriverState) (arrivals : List String) (cmd : String)
    (jsonParam : Dict) (timeoutMs : Int) : SendResult :=
  let tid := pyStr ((dget jsonParam "task_id").getD (PyVal.str "-"))
  let st1 := { st with lastTaskId := tid }
  if st1.connected = false ∨ st1.hasTransport = false then
    ⟨st1, [], [], some (PyErr.attributeError "reconnect_if_needed")⟩
  else
    let text := pyStrip cmd
    let sw := sendAndWait st1 arrivals text okOrError
    if sw.resp = "" then
      if pyLower cmd = "takeoff" ∨ pyLower cmd = "land" then
        ⟨sw.state,
          mkCb st1 cmd 1 [("ack", PyVal.bool true), ("assumed", PyVal.bool true),
            ("task_id", PyVal.str tid)],
          sw.trace, Option.none⟩
      else
        ⟨sw.state,
          mkCb st1 cmd 0 [("error", PyVal.str "timeout"), ("task_id", PyVal.str tid)],
          sw.trace, Option.none⟩
    else if pyLower sw.resp = "ok" then
      ⟨sw.state,
        mkCb st1 cmd 1 [("ack", PyVal.bool true), ("task_id", PyVal.str tid)],
        sw.trace, Option.none⟩
    else
      ⟨sw.state,
        mkCb st1 cmd 0 [("error", PyVal.str sw.resp), ("task_id", PyVal.str tid)],
        sw.trace, Option.none⟩

/-- Result of `heartbeat`: return code, state, trace. -/
structure HbOut where
  rc : Int
  state : DriverState
  trace : List WireAction

/-- `_TelloDriver.heartbeat` (lines 205-218): no transport → `-1`
without touching the wire; otherwise send `battery?` and wait up to one
second for a purely numeric line; cache it as `last_battery` and return
0, else return `-1`. -/
def heartbeat (st : DriverState) (arrivals : List String) : HbOut :=
  if st.hasTransport = false then ⟨-1, st, []⟩
  else
    let sw := sendAndWait st arrivals "battery?" isDigits
    if isDigits sw.resp then
      ⟨0, { sw.state with lastBattery := some ((sw.resp.toNat?).getD 0 : Int) }, sw.trace⟩
    else ⟨-1, sw.state, sw.trace⟩

/-- Module-level `reconnect_if_needed` (lines 263-267): its body is
`return await _driver.reconnect_if_needed()`, and `_TelloDriver` defines
no such method, so the call raises `AttributeError` and returns no
value. -/
def reconnect_if_needed : Except PyErr Int :=
  Except.error (PyErr.attributeError "reconnect_if_needed")

/-!
## CmdQueue (`src/middleware/module/cmd_queue.py`)

The claims only need `CmdMsg` and the payload the worker loop builds at
line 75: `payload = {"task_id": msg.task_id, **(msg.json_param or {})}`.
A dict literal first binds `"task_id"`, then writes every entry of
`json_param` in order, later writes overwriting earlier ones (for an
empty `json_param`, `msg.json_param or {}` is `{}`, which adds
nothing). -/

/-- The `CmdMsg` dataclass (lines 36-41). -/
structure CmdMsg where
  task_id : String
  cmd : String
  json_param : Dict
  timeout_ms : Int

/-- The payload `CmdQueue._worker_loop` passes to `driver.send_cmd`. -/
def workerPayload (msg : CmdMsg) : Dict :=
  dictExtend [("task_id", PyVal.str msg.task_id)] msg.json_param

/-!
## TaskScheduler (`src/middleware/module/task_scheduler.py`)

`_run_task` runs `retry_max + 1` attempts.  Each attempt creates a fresh
future and a fresh `InFlight{future, cb, delivered := false}` entry, and
awaits the future with the per-attempt deadline, then (on deadline) once
more with the grace window.  The future of an attempt is completed only
by `_on_driver_resp`, which, synchronously with that completion (there
is no suspension point between `fut.set_result` and the `delivered`
check), also dispatches the user callback and an ack event whenever
`delivered` is still false — and for a fresh entry it always is at the
first matched response of the attempt, so the bridge delivers exactly
once per attempt that receives a matched response.  A second matched
response in the same attempt is a no-op (future done, delivered true),
and a response arriving after the grace window finds no in-flight entry
and is logged as `ack_unmatched` without any dispatch.

The environment of one attempt is therefore one of three outcomes,
embedded as the `Outcome` oracle:

* `silent` — no matched response during deadline or grace (this also
  covers a response arriving after the entry was removed);
* `inDeadline ok payload` — the response arrived while the runner was in
  its deadline wait: the bridge dispatches callback and event, then the
  runner (lines 116-129) computes the same status and dispatches the
  callback and event again, without consulting `delivered`;
* `inGrace ok payload` — the response arrived during the grace window:
  the runner had already emitted the `timeout` event, the bridge
  dispatches callback and event, and the runner's grace path sees
  `delivered` true and returns (lines 141-154).

On a `silent` attempt the runner emits the `timeout` event, removes the
entry, and then: assumable command → assumed-success callback and
`ack_success_assumed` event; more attempts left → back off and retry;
otherwise → callback with status 1201 and `{error: "timeout"}`
(lines 155-173).  Callback invocations are recorded as `Delivery`
values; they are the invocations of a non-null user callback `cb`
(`_dispatch_cb` does nothing when `cb` is None). -/

/-- Scheduler status codes (lines 37-39). -/
def OK : Int := 0

/-- `ERR_TIMEOUT` (line 38). -/
def ERR_TIMEOUT : Int := 1201

/-- `ERR_GENERIC` (line 39). -/
def ERR_GENERIC : Int := 1500

/-- `status = OK if int(ok) == 1 else ERR_GENERIC` (lines 90, 120, 145). -/
def statusOf (ok : Int) : Int := if ok = 1 then OK else ERR_GENERIC

/-- Scheduler configuration (constructor, lines 53-60; `assume_ok_cmds`
is stored lowercased). -/
structure SchedCfg where
  retryMax : Nat
  assumeOk : List String

/-- What the environment does to one attempt's future. -/
inductive Outcome where
  | silent
  | inDeadline (ok : Int) (payload : Dict)
  | inGrace (ok : Int) (payload : Dict)

/-- One invocation of the user callback `cb(task_id, status, detail)`. -/
structure Delivery where
  taskId : String
  status : Int
  detail : Dict

/-- An event-bus event payload `{severity, name, json_ctx}`. -/
structure Event where
  name : String
  severity : Int
  ctx : Dict

/-- The `timeout` event (lines 132-136). -/
def mkTimeoutEv (tid : String) (attempt : Nat) : Event :=
  ⟨"timeout", 2, [("task_id", PyVal.str tid), ("attempt", PyVal.int attempt)]⟩

/-- The `ack_success` / `ack_fail` event (lines 92-99 and 122-127). -/
def mkAckEv (tid : String) (status : Int) (payload : Dict) : Event :=
  ⟨if status = OK then "ack_success" else "ack_fail",
    if status = OK then 0 else 2,
    [("task_id", PyVal.str tid), ("payload", PyVal.dict payload)]⟩

/-- The `ack_success_assumed` event (line 164). -/
def mkAssumedEv (tid : String) : Event :=
  ⟨"ack_success_assumed", 1, [("task_id", PyVal.str tid)]⟩

/-- The detail of the scheduler's assumed-success callback (line 163). -/
def assumedDetail : Dict :=
  [("ack", PyVal.bool true), ("assumed", PyVal.bool true)]

/-- The attempt loop of `_run_task` over the per-attempt outcomes, with
the attempt index carried for the `timeout` event context.  Returns the
user-callback invocations and the published events, in order. -/
def runList (assumeOk : List String) (msg : CmdMsg) :
    Nat → List Outcome → List Delivery × List Event
  | _, [] => ([], [])
  | k, Outcome.silent :: rest =>
    if pyLower msg.cmd ∈ assumeOk then
      ([⟨msg.task_id, OK, assumedDetail⟩],
       [mkTimeoutEv msg.task_id k, mkAssumedEv msg.task_id])
    else
      match rest with
      | [] =>
        ([⟨msg.task_id, ERR_TIMEOUT, [("error", PyVal.str "timeout")]⟩],
         [mkTimeoutEv msg.task_id k])
      | r :: rs =>
        let next := runList assumeOk msg (k + 1) (r :: rs)
        (next.1, mkTimeoutEv msg.task_id k :: next.2)
  | _, Outcome.inDeadline ok p :: _ =>
    ([⟨msg.task_id, statusOf ok, p⟩, ⟨msg.task_id, statusOf ok, p⟩],
     [mkAckEv msg.task_id (statusOf ok) p, mkAckEv msg.task_id (statusOf ok) p])
  | k, Outcome.inGrace ok p :: _ =>
    ([⟨msg.task_id, statusOf ok, p⟩],
     [mkTimeoutEv msg.task_id k, mkAckEv msg.task_id (statusOf ok) p])

/-- `_run_task` for one submitted task: `retry_max + 1` attempts, the
k-th driven by `oracle k`. -/
def runTask (cfg : SchedCfg) (msg : CmdMsg) (oracle : Nat → Outcome) :
    List Delivery × List Event :=
  runList cfg.assumeOk msg 0 ((List.range (cfg.retryMax + 1)).map oracle)

/-!
## StateMonitor (`src/middleware/module/state_monitor.py`)

One tick of `StateMonitor._run` (lines 67-106).  On heartbeat success
the failure counter resets and a state payload is published (its
`alt`/`lat`/`lon` entries are the constant placeholders `0.0`, `None`,
`None`; only the battery entry, `_battery_cached_or_dummy`, is data).
On failure the counter increments, `heartbeat_fail` is published, and at
the threshold `reconnect_try` is published and
`driver.reconnect_if_needed()` is called — which raises
`AttributeError`, so the events published before the raise are the
tick's only output and the monitor task dies. -/

/-- `_battery_cached_or_dummy` (lines 110-113): the cached value when it
is a non-negative int, `-1` otherwise. -/
def batteryCachedOrDummy : Option Int → Int
  | some v => if v ≥ 0 then v else -1
  | Option.none => -1

/-- Result of one monitor tick: the new failure counter, the events
published, the battery values of the state payloads published, and the
exception that escaped the tick, if any. -/
structure TickOut where
  failCount : Nat
  events : List Event
  statesBattery : List Int
  err : Option PyErr

/-- One tick of `StateMonitor._run` (lines 69-106), given the heartbeat
return code `hbRc` and the driver's cached battery. -/
def monitorTick (maxFail : Nat) (failCount : Nat) (hbRc : Int)
    (lastBattery : Option Int) : TickOut :=
  if hbRc = 0 then
    ⟨0, [], [batteryCachedOrDummy lastBattery], Option.none⟩
  else
    let n := failCount + 1
    let evs := [(⟨"heartbeat_fail", 1, [("consecutive", PyVal.int n)]⟩ : Event)]
    if n ≥ maxFail then
      let evs2 := evs ++ [(⟨"reconnect_try", 2, []⟩ : Event)]
      match reconnect_if_needed with
      | Except.error e => ⟨n, evs2, [], some e⟩
      | Except.ok rc2 =>
        if rc2 = 0 then
          ⟨0, evs2 ++ [(⟨"reconnect_success", 0, []⟩ : Event)], [], Option.none⟩
        else
          ⟨n, evs2 ++ [(⟨"reconnect_fail", 3, []⟩ : Event)], [], Option.none⟩
    else ⟨n, evs, [], Option.none⟩

/-!
## EventBus (`src/middleware/module/event_bus.py`)

`_Broadcast` holds a closed flag, a drop policy, and one bounded queue
per subscriber.  `publish` (lines 81-109) returns immediately when the
channel is closed, otherwise fans the item out to every subscriber queue
under the queue's backpressure policy.  `register` (lines 64-72) creates
the queue, pre-loading the terminal sentinel when the channel is already
closed.  `close` (lines 111-118) sets the flag and puts the sentinel in
every queue.  `_subscribe_generic` (lines 148-163) dequeues until the
sentinel and yields everything before it.  Both `subscribe_state` and
`subscribe_event` are `_subscribe_generic` over one of the two
`_Broadcast` instances, which are constructed with the default policy
`drop_oldest`.

An asyncio queue with `maxsize = 0` is unbounded and never full; the
`block` policy's `await q.put(item)` is embedded as the append it
performs once space is available. -/

/-- An element of a subscriber queue: the terminal sentinel or a
payload. -/
inductive BusItem where
  | sentinel
  | payload (d : Dict)

/-- A subscriber queue: its `maxsize` and its contents, oldest first. -/
structure SubQueue where
  cap : Nat
  items : List BusItem

/-- The drop policies of `_Broadcast` (lines 61-62). -/
inductive DropPolicy where
  | dropOldest
  | dropNewest
  | block

/-- `asyncio.Queue.full()`: bounded and at (or beyond) capacity. -/
def qFull (q : SubQueue) : Bool :=
  decide (0 < q.cap) && decide (q.cap ≤ q.items.length)

/-- The per-subscriber-queue branch of `_Broadcast.publish`
(lines 87-101): not full → append; full and `drop_oldest` → dequeue one
oldest, then append; full and `drop_newest` → skip; full and `block` →
append once the consumer makes space. -/
def putItem (policy : DropPolicy) (q : SubQueue) (m : BusItem) : SubQueue :=
  if qFull q then
    match policy with
    | DropPolicy.dropOldest => ⟨q.cap, q.items.drop 1 ++ [m]⟩
    | DropPolicy.dropNewest => q
    | DropPolicy.block => ⟨q.cap, q.items ++ [m]⟩
  else ⟨q.cap, q.items ++ [m]⟩

/-- A `_Broadcast` channel. -/
structure Broadcast where
  closed : Bool
  policy : DropPolicy
  subs : List SubQueue

/-- `_Broadcast.publish` (lines 81-109): returns unchanged when closed,
otherwise fans the payload out to every subscriber queue. -/
def Broadcast.publish (b : Broadcast) (m : Dict) : Broadcast :=
  if b.closed then b
  else { b with subs := b.subs.map (fun q => putItem b.policy q (BusItem.payload m)) }

/-- `_Broadcast.register` (lines 64-72): a fresh queue, holding the
sentinel already when the channel is closed, appended to the subscriber
list.  Returns the new channel and the new queue. -/
def Broadcast.register (b : Broadcast) (maxsize : Nat) : Broadcast × SubQueue :=
  let q : SubQueue := ⟨maxsize, if b.closed then [BusItem.sentinel] else []⟩
  ({ b with subs := b.subs ++ [q] }, q)

/-- `_Broadcast.close` (lines 111-118): set the flag, sentinel into
every queue (`put_nowait`, unconditional append). -/
def Broadcast.close (b : Broadcast) : Broadcast :=
  ⟨true, b.policy, b.subs.map (fun q => ⟨q.cap, q.items ++ [BusItem.sentinel]⟩)⟩

/-- What `_subscribe_generic` yields from a queue's contents: every
payload strictly before the first sentinel (it dequeues until the
sentinel and stops there). -/
def observe : List BusItem → List Dict
  | [] => []
  | BusItem.sentinel :: _ => []
  | BusItem.payload d :: rest => d :: observe rest


/-!
## Helper lemmas about the driver's wait loop and traces
-/

/-- Whether a wire action is a receive (dequeue) action. -/
def isRecv : WireAction → Bool
  | WireAction.recvMatch _ => true
  | WireAction.recvSkip _ => true
  | _ => false

/-- A trace writes nothing, or it is one drain immediately followed by
one datagram write and then only receive actions. -/
def drainThenSend (tr : List WireAction) : Prop :=
  tr = [] ∨ ∃ t rest, tr = WireAction.drain :: WireAction.send t :: rest ∧ rest.all isRecv = true

theorem waitLoop_recvOnly (pred : String → Bool) (arrivals : List String) :
    (waitLoop pred arrivals).2.1.all isRecv = true := by
  induction arrivals with
  | nil => rfl
  | cons l rest ih =>
    by_cases h : pred l
    · simp [waitLoop, h, isRecv]
    · simpa [waitLoop, h, isRecv] using ih

theorem waitLoop_match_mem (pred : String → Bool) (arrivals : List String) (l : String)
    (h : WireAction.recvMatch l ∈ (waitLoop pred arrivals).2.1) : l ∈ arrivals := by
  induction arrivals with
  | nil => cases h
  | cons a rest ih =>
    by_cases hp : pred a
    · simp [waitLoop, hp] at h
      simp [h]
    · simp only [waitLoop, hp, if_false] at h
      rcases List.mem_cons.mp h with h1 | h2
      · cases h1
      · exact List.mem_cons_of_mem a (ih h2)

theorem waitLoop_resp_of_nomatch (pred : String → Bool) (arrivals : List String)
    (h : ∀ l ∈ arrivals, pred l = false) : (waitLoop pred arrivals).1 = "" := by
  induction arrivals with
  | nil => rfl
  | cons a rest ih =>
    have ha : pred a = false := h a (by simp)
    simp only [waitLoop, ha, Bool.false_eq_true, if_false]
    exact ih (fun l hl => h l (by simp [hl]))

theorem sendCmd_trace_shape (st : DriverState) (arrivals : List String) (cmd : String)
    (jp : Dict) (t : Int) :
    (sendCmd st arrivals cmd jp t).trace = [] ∨
    (sendCmd st arrivals cmd jp t).trace
      = WireAction.drain :: WireAction.send (pyStrip cmd) :: (waitLoop okOrError arrivals).2.1 := by
  by_cases hc : st.connected = false ∨ st.hasTransport = false
  · left
    simp [sendCmd, hc]
  · right
    push_neg at hc
    have htc : st.connected = true := by
      cases hx : st.connected
      · exact absurd hx hc.1
      · rfl
    have ht : st.hasTransport = true := by
      cases hx : st.hasTransport
      · exact absurd hx hc.2
      · rfl
    simp only [sendCmd, sendAndWait, htc, ht, Bool.true_eq_false, or_self, if_false]
    split
    · split
      · rfl
      · rfl
    · split
      · rfl
      · rfl

theorem heartbeat_trace_shape (st : DriverState) (arrivals : List String) :
    (heartbeat st arrivals).trace = [] ∨
    (heartbeat st arrivals).trace
      = WireAction.drain :: WireAction.send "battery?" :: (waitLoop isDigits arrivals).2.1 := by
  by_cases ht : st.hasTransport = false
  · left
    simp [heartbeat, ht]
  · right
    have ht2 : st.hasTransport = true := by
      cases hx : st.hasTransport
      · exact absurd hx ht
      · rfl
    by_cases hd : isDigits (waitLoop isDigits arrivals).1 = true
    · simp [heartbeat, sendAndWait, ht2, hd]
    · simp [heartbeat, sendAndWait, ht2, hd]

theorem sendCmd_reply_from_arrivals (st : DriverState) (arrivals : List String)
    (cmd : String) (jp : Dict) (t : Int) (l : String)
    (h : WireAction.recvMatch l ∈ (sendCmd st arrivals cmd jp t).trace) : l ∈ arrivals := by
  rcases sendCmd_trace_shape st arrivals cmd jp t with hs | hs
  · rw [hs] at h
    cases h
  · rw [hs] at h
    rcases List.mem_cons.mp h with h1 | h2
    · cases h1
    · rcases List.mem_cons.mp h2 with h3 | h4
      · cases h3
      · exact waitLoop_match_mem okOrError arrivals l h4

/-!
## Claims C6, C9, C4 — driver-level properties
-/

/-- Claim C6: every `send_cmd` call and every `heartbeat` call drains
the receive queue to empty before writing any bytes to the socket.  In
the embedding: the wire trace of either call contains no write at all,
or is the drain immediately followed by the single datagram write and
then only receive actions; and any line accepted as the reply was
dequeued after the write — it is one of the arrivals of the wait
window — so no line received before the write can be returned as the
reply to the newly sent command. -/
theorem c6_drain_before_write (st : DriverState) (arrivals : List String)
    (cmd : String) (jp : Dict) (t : Int) :
    drainThenSend (sendCmd st arrivals cmd jp t).trace ∧
    drainThenSend (heartbeat st arrivals).trace ∧
    (∀ l, WireAction.recvMatch l ∈ (sendCmd st arrivals cmd jp t).trace → l ∈ arrivals) := by
  refine ⟨?_, ?_, ?_⟩
  · rcases sendCmd_trace_shape st arrivals cmd jp t with hs | hs
    · exact Or.inl hs
    · exact Or.inr ⟨pyStrip cmd, (waitLoop okOrError arrivals).2.1, hs,
        waitLoop_recvOnly okOrError arrivals⟩
  · rcases heartbeat_trace_shape st arrivals with hs | hs
    · exact Or.inl hs
    · exact Or.inr ⟨"battery?", (waitLoop isDigits arrivals).2.1, hs,
        waitLoop_recvOnly isDigits arrivals⟩
  · exact fun l h => sendCmd_reply_from_arrivals st arrivals cmd jp t l h

/-- A connected driver state with a stale line in the receive queue,
used to instantiate the driver-level claims. -/
def stConn : DriverState :=
  ⟨true, true, ["stale"], true, "-", Option.none⟩

/-- Witness for C6: at a concrete connected state with a stale queued
line, the reply accepted for `forward 30` is one of the lines that
arrived after the write. -/
theorem c6_drain_before_write_witness :
    drainThenSend (sendCmd stConn ["junk", "ok"] "forward 30" [] 2000).trace ∧
    WireAction.recvMatch "ok" ∈ (sendCmd stConn ["junk", "ok"] "forward 30" [] 2000).trace ∧
    "ok" ∈ ["junk", "ok"] := by
  refine ⟨(c6_drain_before_write stConn ["junk", "ok"] "forward 30" [] 2000).1, ?_, ?_⟩
  · decide
  · exact (c6_drain_before_write stConn ["junk", "ok"] "forward 30" [] 2000).2.2 "ok" (by decide)

/-- Counterexample to claim C9: the claim says that for a `send_cmd`
whose cmd is whitespace-only no datagram is written; but at a connected
state, `send_cmd("   ", {}, 2000)` strips the command to the empty
string and still writes it — the trace contains the write of the empty
datagram. -/
theorem c9_counterexample :
    WireAction.send "" ∈ (sendCmd stConn [] "   " [] 2000).trace := by decide

/-- Claim C9 as amended: `send_cmd` does not suppress an empty cmd — on
a connected driver, a cmd that strips to the empty string is written to
the transport as a zero-length datagram (after the drain), like any
other command. -/
theorem c9_empty_cmd_sent (st : DriverState) (arrivals : List String)
    (cmd : String) (jp : Dict) (t : Int)
    (hc : st.connected = true) (ht : st.hasTransport = true)
    (he : pyStrip cmd = "") :
    (sendCmd st arrivals cmd jp t).trace
      = WireAction.drain :: WireAction.send "" :: (waitLoop okOrError arrivals).2.1 := by
  simp only [sendCmd, sendAndWait, hc, ht, Bool.true_eq_false, or_self, if_false, he]
  split
  · split
    · rfl
    · rfl
  · split
    · rfl
    · rfl

/-- Witness for the amended C9 at a concrete connected state and the
whitespace-only command. -/
theorem c9_empty_cmd_sent_witness :
    stConn.connected = true ∧ pyStrip "   " = "" ∧
    (sendCmd stConn [] "   " [] 2000).trace
      = WireAction.drain :: WireAction.send "" :: (waitLoop okOrError []).2.1 :=
  ⟨rfl, by decide, c9_empty_cmd_sent stConn [] "   " [] 2000 rfl rfl (by decide)⟩

/-- A driver state that is not connected (and has no transport), as
after process start without a successful `connect`. -/
def stDisc : DriverState :=
  ⟨false, false, [], true, "-", Option.none⟩

/-- Claim C4 against the code: when the driver is not connected,
`send_cmd` reaches `await self.reconnect_if_needed()` — a method
`_TelloDriver` does not define — so the call raises `AttributeError`:
no reconnect is attempted, the response callback is never invoked
(`calls = []`), nothing is written (`trace = []`), and the exception
escapes to the caller instead of a normal return. -/
theorem c4_not_connected_raises (st : DriverState) (arrivals : List String)
    (cmd : String) (jp : Dict) (t : Int) (h : st.connected = false) :
    sendCmd st arrivals cmd jp t =
      ⟨{ st with lastTaskId := pyStr ((dget jp "task_id").getD (PyVal.str "-")) },
        [], [], some (PyErr.attributeError "reconnect_if_needed")⟩ := by
  simp [sendCmd, h]

/-- Witness for C4 at a concrete disconnected state. -/
theorem c4_not_connected_raises_witness :
    stDisc.connected = false ∧
    sendCmd stDisc [] "takeoff" [("task_id", PyVal.str "t1")] 2000 =
      ⟨⟨false, false, [], true, "t1", Option.none⟩, [], [],
        some (PyErr.attributeError "reconnect_if_needed")⟩ :=
  ⟨rfl, c4_not_connected_raises stDisc [] "takeoff" [("task_id", PyVal.str "t1")] 2000 rfl⟩

/-!
## Claim C3 — assumed success for takeoff / land
-/

/-- On a silent attempt for an assumable command, the runner emits the
timeout event, then dispatches the assumed-success callback and the
`ack_success_assumed` event, regardless of remaining attempts. -/
theorem runList_silent_assume (a : List String) (msg : CmdMsg) (k : Nat)
    (rest : List Outcome) (h : pyLower msg.cmd ∈ a) :
    runList a msg k (Outcome.silent :: rest) =
      ([⟨msg.task_id, OK, assumedDetail⟩],
       [mkTimeoutEv msg.task_id k, mkAssumedEv msg.task_id]) := by
  rw [runList.eq_def]
  simp [h]

/-- Claim C3: when `send_cmd`'s wait times out (no ok/error line
arrives) and the cmd is takeoff or land, the driver invokes the response
callback with `ok = 1` and payload `{ack: true, assumed: true,
task_id}`; and when the scheduler concludes an assumable command after
the grace window (first attempt silent), it dispatches the user callback
exactly once with success status 0 and `{ack: true, assumed: true}` and
publishes `ack_success_assumed` with severity 1 — no plain `ack_success`
event is published. -/
theorem c3_assumed_success
    (st : DriverState) (arrivals : List String) (cmd : String) (jp : Dict) (t : Int)
    (cfg : SchedCfg) (msg : CmdMsg) (oracle : Nat → Outcome)
    (hc : st.connected = true) (ht : st.hasTransport = true) (hcb : st.respCbSet = true)
    (hnom : ∀ l ∈ arrivals, okOrError l = false)
    (hcmd : pyLower cmd = "takeoff" ∨ pyLower cmd = "land")
    (hassume : pyLower msg.cmd ∈ cfg.assumeOk) (h0 : oracle 0 = Outcome.silent) :
    (sendCmd st arrivals cmd jp t).calls =
      [⟨cmd, 1, [("ack", PyVal.bool true), ("assumed", PyVal.bool true),
        ("task_id", PyVal.str (pyStr ((dget jp "task_id").getD (PyVal.str "-"))))]⟩] ∧
    runTask cfg msg oracle =
      ([⟨msg.task_id, OK, assumedDetail⟩],
       [mkTimeoutEv msg.task_id 0, mkAssumedEv msg.task_id]) ∧
    (∀ e ∈ (runTask cfg msg oracle).2, e.name ≠ "ack_success") := by
  have hresp : (waitLoop okOrError arrivals).1 = "" :=
    waitLoop_resp_of_nomatch okOrError arrivals hnom
  have hrt : runTask cfg msg oracle =
      ([⟨msg.task_id, OK, assumedDetail⟩],
       [mkTimeoutEv msg.task_id 0, mkAssumedEv msg.task_id]) := by
    unfold runTask
    rw [List.range_succ_eq_map, List.map_cons, h0, runList_silent_assume cfg.assumeOk msg 0 _ hassume]
  refine ⟨?_, hrt, ?_⟩
  · simp only [sendCmd, sendAndWait, hc, ht, Bool.true_eq_false, or_self, if_false,
      mkCb, hcb, if_true]
    rw [if_pos]
    · rw [if_pos hcmd]
    · exact hresp
  · intro e he
    rw [hrt] at he
    rcases List.mem_cons.mp he with h1 | h2
    · rw [h1]
      simp [mkTimeoutEv]
    · rcases List.mem_cons.mp h2 with h3 | h4
      · rw [h3]
        simp [mkAssumedEv]
      · cases h4

/-- The scheduler configuration defaults: `retry_max = 2`,
`assume_ok_cmds = ("takeoff", "land")`. -/
def cfgDefault : SchedCfg := ⟨2, ["takeoff", "land"]⟩

/-- Witness for C3 at a concrete connected driver state, an empty
arrival window, and a takeoff task whose first attempt is silent. -/
theorem c3_assumed_success_witness :
    pyLower "takeoff" ∈ cfgDefault.assumeOk ∧
    (sendCmd stConn [] "takeoff" [("task_id", PyVal.str "t9")] 500).calls =
      [⟨"takeoff", 1, [("ack", PyVal.bool true), ("assumed", PyVal.bool true),
        ("task_id", PyVal.str (pyStr ((dget [("task_id", PyVal.str "t9")] "task_id").getD
          (PyVal.str "-"))))]⟩] ∧
    runTask cfgDefault ⟨"t2", "takeoff", [], 500⟩ (fun _ => Outcome.silent) =
      ([⟨"t2", OK, assumedDetail⟩], [mkTimeoutEv "t2" 0, mkAssumedEv "t2"]) := by
  have h := c3_assumed_success stConn [] "takeoff" [("task_id", PyVal.str "t9")] 500
    cfgDefault ⟨"t2", "takeoff", [], 500⟩ (fun _ => Outcome.silent)
    rfl rfl rfl (by intro l hl; cases hl) (Or.inl (by decide)) (by decide) rfl
  exact ⟨by decide, h.1, h.2.1⟩

/-!
## Claim C1 — exactly-once callback delivery (violated)
-/

/-- Claim C1 against the code (code bug): for a task whose ack arrives
within the attempt deadline, `_on_driver_resp` dispatches the user
callback (setting `delivered`), and `_run_task`'s normal-completion path
then dispatches the same callback again without consulting `delivered` —
the user callback of one submitted task is invoked twice, where the
claim requires exactly once. -/
theorem c1_double_delivery :
    (runTask cfgDefault ⟨"t1", "takeoff", [], 2000⟩
        (fun _ => Outcome.inDeadline 1
          [("ack", PyVal.bool true), ("task_id", PyVal.str "t1")])).1
      = [⟨"t1", OK, [("ack", PyVal.bool true), ("task_id", PyVal.str "t1")]⟩,
         ⟨"t1", OK, [("ack", PyVal.bool true), ("task_id", PyVal.str "t1")]⟩] ∧
    (runTask cfgDefault ⟨"t1", "takeoff", [], 2000⟩
        (fun _ => Outcome.inDeadline 1
          [("ack", PyVal.bool true), ("task_id", PyVal.str "t1")])).1.length = 2 := by
  constructor
  · rfl
  · rfl

/-!
## Claim C2 — exhausted timeout status (corrected)
-/

/-- Counterexample to claim C2 as stated: the command is not assumable
and no ack ever arrives — the driver's own timeout report
`(ok = 0, {error: "timeout"})` completes the first attempt's future
during the grace window — yet the single user-callback invocation
carries the generic failure status 1500, not the exhausted-timeout
status 1201; no 1201 callback ever happens. -/
theorem c2_counterexample :
    (runTask cfgDefault ⟨"t3", "forward 30", [], 100⟩
        (fun _ => Outcome.inGrace 0
          [("error", PyVal.str "timeout"), ("task_id", PyVal.str "t3")])).1
      = [⟨"t3", ERR_GENERIC,
          [("error", PyVal.str "timeout"), ("task_id", PyVal.str "t3")]⟩] ∧
    ((runTask cfgDefault ⟨"t3", "forward 30", [], 100⟩
        (fun _ => Outcome.inGrace 0
          [("error", PyVal.str "timeout"), ("task_id", PyVal.str "t3")])).1.all
      (fun d => !(d.status == ERR_TIMEOUT))) = true :=
  ⟨rfl, rfl⟩

theorem range_map_silent (oracle : Nat → Outcome)
    (h : ∀ k, oracle k = Outcome.silent) :
    ∀ n, (List.range n).map oracle = List.replicate n Outcome.silent := by
  intro n
  induction n with
  | zero => rfl
  | succ m ih =>
    rw [List.range_succ, List.map_append, ih, List.map_cons, h m, List.map_nil,
      ← List.replicate_succ' ..]

theorem runList_replicate_silent (a : List String) (msg : CmdMsg)
    (hna : pyLower msg.cmd ∉ a) :
    ∀ m k, (runList a msg k (List.replicate (m + 1) Outcome.silent)).1
      = [⟨msg.task_id, ERR_TIMEOUT, [("error", PyVal.str "timeout")]⟩] := by
  intro m
  induction m with
  | zero =>
    intro k
    rw [runList.eq_def]
    simp [hna]
  | succ mm ih =>
    intro k
    rw [runList.eq_def]
    simp only [List.replicate_succ, hna, if_false]
    simpa using ih (k + 1)

/-- Claim C2 as amended: when the command is not in `assume_ok_cmds` and
no driver response of any kind completes the task's future during any
attempt's deadline or grace window (every attempt is silent), then after
the last attempt the scheduler dispatches the user callback exactly once,
with status 1201 and detail `{error: "timeout"}`.  (When the driver's
own timeout report does complete the future — the typical connected
case — the callback instead carries the status computed from the
driver's `ok`, 1500.) -/
theorem c2_exhausted_timeout (cfg : SchedCfg) (msg : CmdMsg) (oracle : Nat → Outcome)
    (hna : pyLower msg.cmd ∉ cfg.assumeOk) (hs : ∀ k, oracle k = Outcome.silent) :
    (runTask cfg msg oracle).1
      = [⟨msg.task_id, ERR_TIMEOUT, [("error", PyVal.str "timeout")]⟩] := by
  unfold runTask
  rw [range_map_silent oracle hs (cfg.retryMax + 1)]
  exact runList_replicate_silent cfg.assumeOk msg hna cfg.retryMax 0

/-- Witness for the amended C2 at a concrete non-assumable task with
every attempt silent. -/
theorem c2_exhausted_timeout_witness :
    pyLower "forward 30" ∉ cfgDefault.assumeOk ∧
    (runTask cfgDefault ⟨"t4", "forward 30", [], 100⟩ (fun _ => Outcome.silent)).1
      = [⟨"t4", ERR_TIMEOUT, [("error", PyVal.str "timeout")]⟩] :=
  ⟨by decide,
    c2_exhausted_timeout cfgDefault ⟨"t4", "forward 30", [], 100⟩
      (fun _ => Outcome.silent) (by decide) (fun _ => rfl)⟩

/-!
## Claim C5 — reconnect outcome events (violated)
-/

/-- Claim C5 against the code (code bug): when the consecutive
heartbeat-failure counter reaches `max_heartbeat_fail`, the monitor
publishes `heartbeat_fail` and exactly one `reconnect_try` (severity 2)
and then calls `driver.reconnect_if_needed()` — but `_TelloDriver`
defines no such method, so the call raises `AttributeError`: neither
`reconnect_success` nor `reconnect_fail` is ever published, and the
exception escapes the tick (killing the monitor task), where the claim
requires `reconnect_try` to always be followed by one of the two
outcome events. -/
theorem c5_reconnect_try_without_outcome (maxFail failCount : Nat) (hbRc : Int)
    (lb : Option Int) (hrc : hbRc ≠ 0) (hth : maxFail ≤ failCount + 1) :
    monitorTick maxFail failCount hbRc lb =
      ⟨failCount + 1,
        [⟨"heartbeat_fail", 1, [("consecutive", PyVal.int (failCount + 1))]⟩,
         ⟨"reconnect_try", 2, []⟩],
        [], some (PyErr.attributeError "reconnect_if_needed")⟩ ∧
    (∀ e ∈ (monitorTick maxFail failCount hbRc lb).events,
      e.name ≠ "reconnect_success" ∧ e.name ≠ "reconnect_fail") := by
  have h1 : monitorTick maxFail failCount hbRc lb =
      ⟨failCount + 1,
        [⟨"heartbeat_fail", 1, [("consecutive", PyVal.int (failCount + 1))]⟩,
         ⟨"reconnect_try", 2, []⟩],
        [], some (PyErr.attributeError "reconnect_if_needed")⟩ := by
    unfold monitorTick
    rw [if_neg hrc, if_pos hth]
    rfl
  refine ⟨h1, ?_⟩
  intro e he
  rw [h1] at he
  rcases List.mem_cons.mp he with h2 | h3
  · rw [h2]
    constructor
    · simp
    · simp
  · rcases List.mem_cons.mp h3 with h4 | h5
    · rw [h4]
      constructor
      · simp
      · simp
    · cases h5

/-- Witness for C5: the third consecutive heartbeat failure with the
default threshold `max_heartbeat_fail = 3`. -/
theorem c5_reconnect_try_without_outcome_witness :
    ((-1 : Int) ≠ 0) ∧ (3 ≤ 2 + 1) ∧
    monitorTick 3 2 (-1) Option.none =
      ⟨3, [⟨"heartbeat_fail", 1, [("consecutive", PyVal.int 3)]⟩,
        ⟨"reconnect_try", 2, []⟩],
        [], some (PyErr.attributeError "reconnect_if_needed")⟩ :=
  ⟨by decide, by decide,
    (c5_reconnect_try_without_outcome 3 2 (-1) Option.none (by decide) (by decide)).1⟩

/-!
## Claims C7, C8 — event-bus properties
-/

theorem publish_closed (b : Broadcast) (m : Dict) (h : b.closed = true) :
    Broadcast.publish b m = b := by
  unfold Broadcast.publish
  rw [if_pos h]

theorem fold_publish_closed (b : Broadcast) (ps : List Dict) (h : b.closed = true) :
    ps.foldl Broadcast.publish b = b := by
  induction ps with
  | nil => rfl
  | cons p rest ih =>
    rw [List.foldl_cons, publish_closed b p h, ih]

/-- Claim C8: after `shutdown()` has closed a channel, every
subsequently registered subscription holds exactly the terminal
sentinel; later publishes (which return immediately on a closed
channel) leave the whole bus unchanged, so the subscriber's iteration
yields no payload elements and terminates at once. -/
theorem c8_subscribe_after_shutdown (b0 : Broadcast) (maxsize : Nat) (ps : List Dict) :
    ((Broadcast.close b0).register maxsize).2.items = [BusItem.sentinel] ∧
    observe ((Broadcast.close b0).register maxsize).2.items = [] ∧
    ps.foldl Broadcast.publish ((Broadcast.close b0).register maxsize).1
      = ((Broadcast.close b0).register maxsize).1 := by
  refine ⟨rfl, rfl, ?_⟩
  exact fold_publish_closed _ ps rfl

theorem subqueue_eq (q : SubQueue) (c : Nat) (i : List BusItem)
    (h1 : q.cap = c) (h2 : q.items = i) : q = ⟨c, i⟩ := by
  cases q
  cases h1
  cases h2
  rfl

theorem fold_putItem_cap (policy : DropPolicy) (msgs : List BusItem) (q : SubQueue) :
    (msgs.foldl (fun qq m => putItem policy qq m) q).cap = q.cap := by
  induction msgs generalizing q with
  | nil => rfl
  | cons m rest ih =>
    rw [List.foldl_cons, ih]
    unfold putItem
    split
    · split <;> rfl
    · rfl

theorem dropOldest_fold (K : Nat) (hK : 1 ≤ K) :
    ∀ (msgs : List BusItem) (its : List BusItem), its.length ≤ K →
    (msgs.foldl (fun q m => putItem DropPolicy.dropOldest q m) (⟨K, its⟩ : SubQueue)).items
      = (its ++ msgs).drop ((its ++ msgs).length - K) := by
  intro msgs
  induction msgs with
  | nil =>
    intro its h
    simp [Nat.sub_eq_zero_of_le h]
  | cons m rest ih =>
    intro its h
    rw [List.foldl_cons]
    by_cases hf : qFull ⟨K, its⟩ = true
    · have hlen : its.length = K := by
        unfold qFull at hf
        simp at hf
        omega
      have hp : putItem DropPolicy.dropOldest ⟨K, its⟩ m = ⟨K, its.drop 1 ++ [m]⟩ := by
        unfold putItem
        rw [if_pos hf]
      rw [hp]
      have hlen2 : (its.drop 1 ++ [m]).length ≤ K := by
        simp
        omega
      rw [ih (its.drop 1 ++ [m]) hlen2]
      obtain ⟨a, its2, rfl⟩ : ∃ a its2, its = a :: its2 := by
        cases its with
        | nil => simp at hlen; omega
        | cons a its2 => exact ⟨a, its2, rfl⟩
      simp only [List.drop_succ_cons, List.drop_zero, List.append_assoc,
        List.singleton_append, List.cons_append]
      have hlen3 : (a :: (its2 ++ m :: rest)).length - K
          = ((its2 ++ m :: rest).length - K) + 1 := by
        simp at hlen ⊢
        omega
      rw [hlen3, List.drop_succ_cons]
      simp
    · have hlen : its.length < K := by
        unfold qFull at hf
        simp at hf
        omega
      have hp : putItem DropPolicy.dropOldest ⟨K, its⟩ m = ⟨K, its ++ [m]⟩ := by
        unfold putItem
        rw [if_neg hf]
      rw [hp, ih (its ++ [m]) (by simp; omega)]
      rw [List.append_assoc, List.singleton_append]

theorem publish_fold_single (policy : DropPolicy) (msgs : List Dict) (q : SubQueue) :
    msgs.foldl Broadcast.publish ⟨false, policy, [q]⟩
      = ⟨false, policy, [msgs.foldl (fun qq m => putItem policy qq (BusItem.payload m)) q]⟩ := by
  induction msgs generalizing q with
  | nil => rfl
  | cons m rest ih =>
    rw [List.foldl_cons, List.foldl_cons]
    have hp : Broadcast.publish ⟨false, policy, [q]⟩ m
        = ⟨false, policy, [putItem policy q (BusItem.payload m)]⟩ := by
      unfold Broadcast.publish
      rfl
    rw [hp, ih]

theorem observe_map_payload (l : List Dict) : observe (l.map BusItem.payload) = l := by
  induction l with
  | nil => rfl
  | cons d rest ih => simp [observe, ih]

/-- Claim C7: on a channel with drop policy `drop_oldest` and a single
subscriber queue of capacity `K ≥ 1`, publishing `N > K` messages while
the subscriber consumes nothing leaves the queue holding exactly the
last `K` published messages in publish order, and the subscriber then
observes exactly those. -/
theorem c7_drop_oldest_last_K (K : Nat) (msgs : List Dict)
    (hK : 1 ≤ K) (hN : K < msgs.length) :
    (msgs.foldl Broadcast.publish ⟨false, DropPolicy.dropOldest, [⟨K, []⟩]⟩).subs
      = [⟨K, (msgs.drop (msgs.length - K)).map BusItem.payload⟩] ∧
    observe ((msgs.drop (msgs.length - K)).map BusItem.payload)
      = msgs.drop (msgs.length - K) := by
  constructor
  · rw [publish_fold_single]
    have hfold : msgs.foldl (fun qq m => putItem DropPolicy.dropOldest qq (BusItem.payload m))
        (⟨K, []⟩ : SubQueue)
        = (msgs.map BusItem.payload).foldl
            (fun qq m => putItem DropPolicy.dropOldest qq m) (⟨K, []⟩ : SubQueue) := by
      rw [List.foldl_map]
    have hitems := dropOldest_fold K hK (msgs.map BusItem.payload) [] (by simp)
    have hcap := fold_putItem_cap DropPolicy.dropOldest (msgs.map BusItem.payload)
      (⟨K, []⟩ : SubQueue)
    have hq : (msgs.map BusItem.payload).foldl
        (fun qq m => putItem DropPolicy.dropOldest qq m) (⟨K, []⟩ : SubQueue)
        = ⟨K, (msgs.drop (msgs.length - K)).map BusItem.payload⟩ := by
      refine subqueue_eq _ _ _ hcap ?_
      rw [hitems]
      simp [List.map_drop]
    rw [hfold, hq]
  · exact observe_map_payload _

/-- Five state payloads `{seq: 1} .. {seq: 5}`, as in the spec's
drop_oldest scenario. -/
def seqMsgs : List Dict :=
  [[("seq", PyVal.int 1)], [("seq", PyVal.int 2)], [("seq", PyVal.int 3)],
   [("seq", PyVal.int 4)], [("seq", PyVal.int 5)]]

/-- Witness for C7: capacity 2, five publishes, the queue ends with
`{seq: 4}, {seq: 5}`. -/
theorem c7_drop_oldest_last_K_witness :
    (1 ≤ 2) ∧ (2 < seqMsgs.length) ∧
    (seqMsgs.foldl Broadcast.publish ⟨false, DropPolicy.dropOldest, [⟨2, []⟩]⟩).subs
      = [⟨2, (seqMsgs.drop (seqMsgs.length - 2)).map BusItem.payload⟩] ∧
    observe ((seqMsgs.drop (seqMsgs.length - 2)).map BusItem.payload)
      = [[("seq", PyVal.int 4)], [("seq", PyVal.int 5)]] := by
  have h := c7_drop_oldest_last_K 2 seqMsgs (by decide) (by decide)
  exact ⟨by decide, by decide, h.1, h.2⟩

/-!
## Claim C10 — worker payload task_id precedence
-/

theorem dget_none_key_absent (d : Dict) (key : String)
    (h : dget d key = Option.none) : ∀ kv ∈ d, kv.1 ≠ key := by
  induction d with
  | nil =>
    intro kv hkv
    cases hkv
  | cons p rest ih =>
    obtain ⟨k1, v1⟩ := p
    intro kv hkv
    by_cases hk : k1 == key
    · exfalso
      rw [dget, if_pos hk] at h
      cases h
    · rw [dget, if_neg hk] at h
      rcases List.mem_cons.mp hkv with h1 | h2
      · rw [h1]
        simpa using hk
      · exact ih h kv h2

theorem dget_dictExtend_of_mem (kvs : List (String × PyVal))
    (key : String) (v : PyVal) :
    ∀ d : Dict, (kvs.map Prod.fst).Nodup → dget kvs key = some v →
      dget (dictExtend d kvs) key = some v := by
  induction kvs with
  | nil =>
    intro d _ h
    cases h
  | cons p rest ih =>
    intro d hnd h
    obtain ⟨k1, v1⟩ := p
    rw [List.map_cons] at hnd
    by_cases hk : k1 == key
    · have hkey : k1 = key := by simpa using hk
      have hv : v1 = v := by
        rw [dget, if_pos hk] at h
        cases h
        rfl
      have habs : ∀ q ∈ rest, q.1 ≠ key := by
        intro q hq he
        have hmem : k1 ∈ rest.map Prod.fst := by
          rw [hkey, ← he]
          exact List.mem_map_of_mem Prod.fst hq
        exact (List.nodup_cons.mp hnd).1 hmem
      show dget (dictExtend (upsert d k1 v1) rest) key = some v
      rw [dget_dictExtend_of_absent _ _ _ habs, hkey, hv, dget_upsert_self]
    · have h2 : dget rest key = some v := by
        rw [dget, if_neg hk] at h
        exact h
      show dget (dictExtend (upsert d k1 v1) rest) key = some v
      exact ih (upsert d k1 v1) (List.nodup_cons.mp hnd).2 h2

/-- Claim C10: in the payload `CmdQueue._worker_loop` builds for
`driver.send_cmd` — `{"task_id": msg.task_id, **(msg.json_param or {})}`
— the `json_param` entries are written after the queue-inserted task_id
and therefore take precedence: when `json_param` binds `"task_id"` the
payload carries that value, otherwise it carries `msg.task_id`; and the
driver's `_last_task_id` (the tag `send_cmd` reads back from the
payload and reports in every response, hence the task id used for ack
correlation) is the string of exactly that binding. -/
theorem c10_payload_task_id (msg : CmdMsg) (st : DriverState)
    (arrivals : List String) (t : Int)
    (hnd : (msg.json_param.map Prod.fst).Nodup) :
    (dget msg.json_param "task_id" = Option.none →
      dget (workerPayload msg) "task_id" = some (PyVal.str msg.task_id)) ∧
    (∀ v, dget msg.json_param "task_id" = some v →
      dget (workerPayload msg) "task_id" = some v) ∧
    (sendCmd st arrivals msg.cmd (workerPayload msg) t).state.lastTaskId
      = pyStr ((dget (workerPayload msg) "task_id").getD (PyVal.str "-")) := by
  refine ⟨?_, ?_, ?_⟩
  · intro h
    unfold workerPayload
    rw [dget_dictExtend_of_absent _ _ _ (dget_none_key_absent _ _ h)]
    rfl
  · intro v h
    exact dget_dictExtend_of_mem msg.json_param "task_id" v _ hnd h
  · by_cases hcon : st.connected = false ∨ st.hasTransport = false
    · simp [sendCmd, hcon]
    · push_neg at hcon
      have hc2 : st.connected = true := by
        cases hx : st.connected
        · exact absurd hx hcon.1
        · rfl
      have ht2 : st.hasTransport = true := by
        cases hx : st.hasTransport
        · exact absurd hx hcon.2
        · rfl
      by_cases hr : (waitLoop okOrError arrivals).1 = ""
      · by_cases hl : pyLower msg.cmd = "takeoff" ∨ pyLower msg.cmd = "land"
        · simp [sendCmd, sendAndWait, hc2, ht2, hr, hl]
        · simp [sendCmd, sendAndWait, hc2, ht2, hr, hl]
      · by_cases hok : pyLower (waitLoop okOrError arrivals).1 = "ok"
        · simp [sendCmd, sendAndWait, hc2, ht2, hr, hok]
        · simp [sendCmd, sendAndWait, hc2, ht2, hr, hok]

/-- Witness for C10: a `json_param` that overrides `task_id`, and one
that does not. -/
theorem c10_payload_task_id_witness :
    (([("task_id", PyVal.str "jp-id"), ("speed", PyVal.int 10)].map Prod.fst).Nodup) ∧
    dget (workerPayload ⟨"m1", "cw 90",
        [("task_id", PyVal.str "jp-id"), ("speed", PyVal.int 10)], 2000⟩) "task_id"
      = some (PyVal.str "jp-id") ∧
    dget (workerPayload ⟨"m2", "cw 90", [], 2000⟩) "task_id"
      = some (PyVal.str "m2") := by
  refine ⟨by decide, ?_, ?_⟩
  · exact (c10_payload_task_id
      ⟨"m1", "cw 90", [("task_id", PyVal.str "jp-id"), ("speed", PyVal.int 10)], 2000⟩
      stConn [] 2000 (by decide)).2.1 (PyVal.str "jp-id") rfl
  · exact (c10_payload_task_id ⟨"m2", "cw 90", [], 2000⟩ stConn [] 2000 (by decide)).1 rfl
